import Mathlib

/-!
Shallow embedding of the argument-mining visualisation repository.

The repository ingests a conversation transcript, extracts an argumentation
graph via an LLM call, validates it against a pydantic schema
(src/models.py, src/strategies/ibis.py), attaches 2-D positions (main.py),
and renders a topic map and a timeline chart (src/plotter.py).

Python floats are modelled as exact rationals; fallible code (pydantic
validation, list indexing, the external LLM / embedding / PCA calls) is
modelled with Option / Except.
-/

/-! ## Data model (src/models.py) -/

/-- Node of the argument graph (src/models.py, class Node).  All fields after
content are Optional in the pydantic model and default to None. -/
structure Node where
  id : String
  content : String
  speaker : Option String := none
  type : String
  sequence : Option Int := none
  position_2d : Option (List ℚ) := none
  embedding : Option (List ℚ) := none
  cosine_sim_to_first : Option ℚ := none
deriving Repr, DecidableEq

/-- Edge of the argument graph (src/models.py, class Edge). -/
structure Edge where
  source : String
  target : String
  label : String
deriving Repr, DecidableEq

/-- The argument graph (src/models.py, class ArgumentGraph). -/
structure ArgumentGraph where
  nodes : List Node
  edges : List Edge
deriving Repr, DecidableEq

/-! ## JSON values and pydantic-style validation

IBISStrategy.analyze (src/strategies/ibis.py line 51) validates the JSON
object returned by the LLM with `ArgumentGraph(**data)`.  We model parsed
JSON values and the pydantic validation of the three model classes:
a required field must be present with the right JSON type, an Optional
field may be absent or null (defaulting to none), extra keys are ignored. -/

/-- A parsed JSON value.  Numbers are exact rationals. -/
inductive Json where
  | null : Json
  | bool : Bool → Json
  | num : ℚ → Json
  | str : String → Json
  | arr : List Json → Json
  | obj : List (String × Json) → Json
deriving Repr

/-- Key lookup in a JSON object (Python dict keys are unique, so the first
match is the only match). -/
def getField : List (String × Json) → String → Option Json
  | [], _ => none
  | (k, v) :: rest, key => if k = key then some v else getField rest key

/-- Pydantic `str` field: accepts exactly JSON strings. -/
def parseStrJ : Json → Option String
  | Json.str s => some s
  | _ => none

/-- Pydantic `int` field: accepts integral JSON numbers. -/
def parseIntJ : Json → Option Int
  | Json.num q => if q.den = 1 then some q.num else none
  | _ => none

/-- Pydantic `float` field: accepts any JSON number. -/
def parseRatJ : Json → Option ℚ
  | Json.num q => some q
  | _ => none

/-- Pydantic `list[float]` field. -/
def parseRatListJ : Json → Option (List ℚ)
  | Json.arr xs => xs.mapM parseRatJ
  | _ => none

/-- A required pydantic field: missing key or wrong type is a validation
error. -/
def parseReq (fs : List (String × Json)) (key : String) (p : Json → Option α) : Option α :=
  (getField fs key).bind p

/-- An Optional pydantic field with default None: a missing key or an
explicit null yields none; a present value must have the right type. -/
def parseOpt (fs : List (String × Json)) (key : String) (p : Json → Option α) :
    Option (Option α) :=
  match getField fs key with
  | none => some none
  | some Json.null => some none
  | some v => (p v).map some

/-- Pydantic validation of Node (src/models.py lines 4-12). -/
def parseNode : Json → Option Node
  | Json.obj fs => do
    let idv ← parseReq fs "id" parseStrJ
    let contentv ← parseReq fs "content" parseStrJ
    let speakerv ← parseOpt fs "speaker" parseStrJ
    let typev ← parseReq fs "type" parseStrJ
    let sequencev ← parseOpt fs "sequence" parseIntJ
    let posv ← parseOpt fs "position_2d" parseRatListJ
    let embv ← parseOpt fs "embedding" parseRatListJ
    let cosv ← parseOpt fs "cosine_sim_to_first" parseRatJ
    some { id := idv, content := contentv, speaker := speakerv, type := typev,
           sequence := sequencev, position_2d := posv, embedding := embv,
           cosine_sim_to_first := cosv }
  | _ => none

/-- Pydantic validation of Edge (src/models.py lines 14-17). -/
def parseEdge : Json → Option Edge
  | Json.obj fs => do
    let sourcev ← parseReq fs "source" parseStrJ
    let targetv ← parseReq fs "target" parseStrJ
    let labelv ← parseReq fs "label" parseStrJ
    some { source := sourcev, target := targetv, label := labelv }
  | _ => none

/-- Validation of the node list, failing on the first invalid element. -/
def parseNodes : List Json → Option (List Node)
  | [] => some []
  | j :: js => do
    let n ← parseNode j
    let ns ← parseNodes js
    some (n :: ns)

/-- Validation of the edge list. -/
def parseEdges : List Json → Option (List Edge)
  | [] => some []
  | j :: js => do
    let e ← parseEdge j
    let es ← parseEdges js
    some (e :: es)

/-- Pydantic validation `ArgumentGraph(**data)` as performed at the end of
IBISStrategy.analyze (src/strategies/ibis.py line 51): both collection
fields are required lists whose elements must validate. -/
def ArgumentGraph.validate : Json → Option ArgumentGraph
  | Json.obj fs => do
    let nodesJ ← getField fs "nodes"
    let edgesJ ← getField fs "edges"
    let ns ← (match nodesJ with
      | Json.arr xs => parseNodes xs
      | _ => none)
    let es ← (match edgesJ with
      | Json.arr xs => parseEdges xs
      | _ => none)
    some { nodes := ns, edges := es }
  | _ => none

/-- The four node type tags fixed by the extraction prompt
(src/strategies/ibis.py lines 13-17 and 45). -/
def nodeTypeVocabulary : List String := ["issue", "position", "argument", "decision"]

example : ArgumentGraph.validate (Json.obj [("nodes", Json.arr []), ("edges", Json.arr [])]) =
    some { nodes := [], edges := [] } := by rfl

example : parseNode (Json.obj [("id", Json.str "n1"), ("type", Json.str "issue"),
    ("content", Json.str "c"), ("speaker", Json.str "s"), ("sequence", Json.num 1)]) =
    some { id := "n1", content := "c", speaker := some "s", type := "issue",
           sequence := some 1, position_2d := none, embedding := none,
           cosine_sim_to_first := none } := by rfl

/-! ## Topic map plotter (src/plotter.py, TopicMapPlotter.generate_plot)

The chart is modelled by the data actually computed from the graph: the
node DataFrame rows (coordinates, labels, RGB colour columns) and the edge
segment rows.  The purely visual Altair layer configuration carries no
graph-dependent information beyond these rows and is not modelled. -/

/-- Python truthiness of node.position_2d in the plot guards: a list that is
present and non-empty. -/
def nodeHasPos (n : Node) : Bool :=
  match n.position_2d with
  | some (_ :: _) => true
  | _ => false

/-- The guard of generate_plot (src/plotter.py line 14): plotting proceeds
iff the node list is non-empty and every node has a truthy position_2d. -/
def plotGuard (g : ArgumentGraph) : Bool :=
  !g.nodes.isEmpty && g.nodes.all nodeHasPos

/-- Content truncation for the node label (src/plotter.py line 21). -/
def contentForLabel (s : String) : String :=
  if s.length > 30 then s.take 30 ++ "..." else s

/-- Speaker label with Python truthiness (src/plotter.py line 20 and 135,
and the `node.speaker or "Unknown"` of line 142): None and the empty string
both give "Unknown". -/
def speakerLabel : Option String → String
  | some s => if s = "" then "Unknown" else s
  | none => "Unknown"

/-- Node label text (src/plotter.py line 22). -/
def labelText (n : Node) : String :=
  speakerLabel n.speaker ++ "\n" ++ contentForLabel n.content

/-- Python list indexing, raising IndexError when out of range. -/
def getCoord (pos : List ℚ) (i : Nat) : Except String ℚ :=
  match pos[i]? with
  | some v => Except.ok v
  | none => Except.error "IndexError: list index out of range"

/-- One row of the node DataFrame of generate_plot before the colour
columns are added (src/plotter.py lines 24-32). -/
structure PlotRowBase where
  id : String
  x : ℚ
  y : ℚ
  content_full : String
  label_text : String
  type : String
  sequence : Option Int
deriving Repr, DecidableEq

/-- Build one node row (src/plotter.py lines 19-32); position_2d is
non-None whenever the guard passed, and indexing may raise. -/
def plotRowOf (n : Node) : Except String PlotRowBase :=
  match getCoord (n.position_2d.getD []) 0, getCoord (n.position_2d.getD []) 1 with
  | Except.ok x, Except.ok y =>
      Except.ok { id := n.id, x := x, y := y, content_full := n.content,
                  label_text := labelText n, type := n.type, sequence := n.sequence }
  | Except.error e, _ => Except.error e
  | _, Except.error e => Except.error e

/-- Build all node rows, propagating the first error. -/
def plotRowsOf : List Node → Except String (List PlotRowBase)
  | [] => Except.ok []
  | n :: ns =>
    match plotRowOf n, plotRowsOf ns with
    | Except.ok r, Except.ok rs => Except.ok (r :: rs)
    | Except.error e, _ => Except.error e
    | _, Except.error e => Except.error e

/-- Minimum of a DataFrame column (pandas .min(); only applied to non-empty
columns, the value at [] is irrelevant junk). -/
def listMin : List ℚ → ℚ
  | [] => 0
  | x :: xs => xs.foldl min x

/-- Maximum of a DataFrame column (pandas .max()). -/
def listMax : List ℚ → ℚ
  | [] => 0
  | x :: xs => xs.foldl max x

/-- One colour channel (src/plotter.py lines 42-50): values are mapped
affinely onto 50..255 and truncated to int, unless the coordinate range is
degenerate, in which case the channel is the constant 128.  The truncation
`.astype(int)` agrees with the floor on the non-negative values produced
here. -/
def scaleChannel (vmin vmax v : ℚ) : Int :=
  if vmax - vmin > 0 then ⌊(v - vmin) / (vmax - vmin) * 205 + 50⌋ else 128

/-- One lowercase hex digit. -/
def hexDigit (n : Nat) : Char :=
  if n < 10 then Char.ofNat (48 + n) else Char.ofNat (87 + n)

/-- Two-digit lowercase hexadecimal, as the format spec 02x renders the
channel values 0..255 occurring here. -/
def hex2 (n : Nat) : String :=
  String.mk [hexDigit (n / 16 % 16), hexDigit (n % 16)]

/-- HEX colour string (src/plotter.py line 55). -/
def colorHex (r g b : Int) : String :=
  "#" ++ hex2 r.toNat ++ hex2 g.toNat ++ hex2 b.toNat

/-- One row of the node DataFrame of generate_plot after the colour
columns r, g, b, color_rgb are added (src/plotter.py lines 35-55). -/
structure PlotRow where
  id : String
  x : ℚ
  y : ℚ
  content_full : String
  label_text : String
  type : String
  sequence : Option Int
  r : Int
  g : Int
  b : Int
  color_rgb : String
deriving Repr, DecidableEq

/-- Attach the colour columns to one row (src/plotter.py lines 42-55):
r from the x column, g from the y column, b constant 128. -/
def colorRow (xmin xmax ymin ymax : ℚ) (row : PlotRowBase) : PlotRow :=
  { id := row.id, x := row.x, y := row.y, content_full := row.content_full,
    label_text := row.label_text, type := row.type, sequence := row.sequence,
    r := scaleChannel xmin xmax row.x, g := scaleChannel ymin ymax row.y, b := 128,
    color_rgb := colorHex (scaleChannel xmin xmax row.x) (scaleChannel ymin ymax row.y) 128 }

/-- The node_pos_map dict lookup (src/plotter.py line 59 and .get of lines
62-63): built by iterating the rows in order, so on duplicate ids the last
row wins. -/
def lastLookup (key : α → String) (val : α → β) : List α → String → Option β
  | [], _ => none
  | a :: rest, s =>
    match lastLookup key val rest s with
    | some p => some p
    | none => if key a = s then some (val a) else none

/-- One edge segment row of generate_plot (src/plotter.py line 65). -/
structure EdgeSeg where
  x1 : ℚ
  y1 : ℚ
  x2 : ℚ
  y2 : ℚ
deriving Repr, DecidableEq

/-- The segment an edge contributes, if both endpoints are found in the
position map (src/plotter.py lines 61-65; the positions are tuples, which
are always truthy). -/
def edgeSegOf (rows : List PlotRow) (e : Edge) : Option EdgeSeg :=
  match lastLookup PlotRow.id (fun r => (r.x, r.y)) rows e.source,
        lastLookup PlotRow.id (fun r => (r.x, r.y)) rows e.target with
  | some p, some q => some { x1 := p.1, y1 := p.2, x2 := q.1, y2 := q.2 }
  | _, _ => none

/-- The edge DataFrame of generate_plot (src/plotter.py lines 58-67). -/
def edgeSegs (rows : List PlotRow) (edges : List Edge) : List EdgeSeg :=
  edges.filterMap (edgeSegOf rows)

/-- The graph-dependent content of the chart returned by generate_plot. -/
structure PlotChart where
  nodeRows : List PlotRow
  edgeRows : List EdgeSeg
deriving Repr, DecidableEq

/-- Assemble the chart data of generate_plot from the base node rows
(src/plotter.py lines 35-67). -/
def buildPlotChart (rows : List PlotRowBase) (edges : List Edge) : PlotChart :=
  let xmin := listMin (rows.map PlotRowBase.x)
  let xmax := listMax (rows.map PlotRowBase.x)
  let ymin := listMin (rows.map PlotRowBase.y)
  let ymax := listMax (rows.map PlotRowBase.y)
  let colored := rows.map (colorRow xmin xmax ymin ymax)
  { nodeRows := colored, edgeRows := edgeSegs colored edges }

/-- TopicMapPlotter.generate_plot (src/plotter.py lines 7-119): ok none
models the `return None` of the guard, an error models an uncaught Python
exception, ok (some chart) models a returned chart. -/
def TopicMapPlotter.generate_plot (g : ArgumentGraph) : Except String (Option PlotChart) :=
  if plotGuard g then
    match plotRowsOf g.nodes with
    | Except.error e => Except.error e
    | Except.ok rows => Except.ok (some (buildPlotChart rows g.edges))
  else Except.ok none

/-! ## Timeline plotter (src/plotter.py, TopicMapPlotter.generate_timeline_plot) -/

/-- The guard of generate_timeline_plot (src/plotter.py line 129): plotting
proceeds iff the node list is non-empty and every node has both a
sequence and a truthy position_2d. -/
def timelineGuard (g : ArgumentGraph) : Bool :=
  !g.nodes.isEmpty && g.nodes.all (fun n => n.sequence.isSome && nodeHasPos n)

/-- One row of the node DataFrame of generate_timeline_plot before the
colour columns are added (src/plotter.py lines 139-148). -/
structure TimelineRowBase where
  id : String
  sequence : Int
  speaker : String
  x_topic : ℚ
  y_topic : ℚ
  content_full : String
  label_text : String
  type : String
deriving Repr, DecidableEq

/-- Build one timeline node row (src/plotter.py lines 134-148); sequence
and position_2d are non-None whenever the guard passed. -/
def timelineRowOf (n : Node) : Except String TimelineRowBase :=
  match getCoord (n.position_2d.getD []) 0, getCoord (n.position_2d.getD []) 1 with
  | Except.ok x, Except.ok y =>
      Except.ok { id := n.id, sequence := n.sequence.getD 0,
                  speaker := speakerLabel n.speaker, x_topic := x, y_topic := y,
                  content_full := n.content, label_text := labelText n, type := n.type }
  | Except.error e, _ => Except.error e
  | _, Except.error e => Except.error e

/-- Build all timeline node rows, propagating the first error. -/
def timelineRowsOf : List Node → Except String (List TimelineRowBase)
  | [] => Except.ok []
  | n :: ns =>
    match timelineRowOf n, timelineRowsOf ns with
    | Except.ok r, Except.ok rs => Except.ok (r :: rs)
    | Except.error e, _ => Except.error e
    | _, Except.error e => Except.error e

/-- One row of the timeline node DataFrame after the colour columns are
added (src/plotter.py lines 151-163, same colour logic as the topic map
applied to the x_topic and y_topic columns). -/
structure TimelineRow where
  id : String
  sequence : Int
  speaker : String
  x_topic : ℚ
  y_topic : ℚ
  content_full : String
  label_text : String
  type : String
  r : Int
  g : Int
  b : Int
  color_rgb : String
deriving Repr, DecidableEq

/-- Attach the colour columns to one timeline row. -/
def colorTimelineRow (xmin xmax ymin ymax : ℚ) (row : TimelineRowBase) : TimelineRow :=
  { id := row.id, sequence := row.sequence, speaker := row.speaker,
    x_topic := row.x_topic, y_topic := row.y_topic, content_full := row.content_full,
    label_text := row.label_text, type := row.type,
    r := scaleChannel xmin xmax row.x_topic, g := scaleChannel ymin ymax row.y_topic, b := 128,
    color_rgb := colorHex (scaleChannel xmin xmax row.x_topic) (scaleChannel ymin ymax row.y_topic) 128 }

/-- One edge row of generate_timeline_plot (src/plotter.py lines 174-180).
mid_y_num is the constant `nodes_df.columns.get_loc('speaker') + 0.5`:
the speaker column has index 2, so the value is 5/2. -/
structure TimelineSeg where
  x1 : Int
  y1 : String
  x2 : Int
  y2 : String
  label : String
  mid_x : ℚ
  mid_y_num : ℚ
deriving Repr, DecidableEq

/-- The segment an edge contributes to the timeline chart, if both
endpoints are found in the (sequence, speaker) position map
(src/plotter.py lines 166-180).  mid_x is the Python float division
(source sequence + target sequence) / 2, exact on rationals. -/
def timelineSegOf (rows : List TimelineRow) (e : Edge) : Option TimelineSeg :=
  match lastLookup TimelineRow.id (fun r => (r.sequence, r.speaker)) rows e.source,
        lastLookup TimelineRow.id (fun r => (r.sequence, r.speaker)) rows e.target with
  | some p, some q =>
      some { x1 := p.1, y1 := p.2, x2 := q.1, y2 := q.2, label := e.label,
             mid_x := mkRat (p.1 + q.1) 2, mid_y_num := 5 / 2 }
  | _, _ => none

/-- The edge DataFrame of generate_timeline_plot. -/
def timelineSegs (rows : List TimelineRow) (edges : List Edge) : List TimelineSeg :=
  edges.filterMap (timelineSegOf rows)

/-- The graph-dependent content of the chart returned by
generate_timeline_plot. -/
structure TimelineChart where
  nodeRows : List TimelineRow
  edgeRows : List TimelineSeg
deriving Repr, DecidableEq

/-- Assemble the chart data of generate_timeline_plot from the base rows
(src/plotter.py lines 151-181). -/
def buildTimelineChart (rows : List TimelineRowBase) (edges : List Edge) : TimelineChart :=
  let xmin := listMin (rows.map TimelineRowBase.x_topic)
  let xmax := listMax (rows.map TimelineRowBase.x_topic)
  let ymin := listMin (rows.map TimelineRowBase.y_topic)
  let ymax := listMax (rows.map TimelineRowBase.y_topic)
  let colored := rows.map (colorTimelineRow xmin xmax ymin ymax)
  { nodeRows := colored, edgeRows := timelineSegs colored edges }

/-- TopicMapPlotter.generate_timeline_plot (src/plotter.py lines 122-233). -/
def TopicMapPlotter.generate_timeline_plot (g : ArgumentGraph) :
    Except String (Option TimelineChart) :=
  if timelineGuard g then
    match timelineRowsOf g.nodes with
    | Except.error e => Except.error e
    | Except.ok rows => Except.ok (some (buildTimelineChart rows g.edges))
  else Except.ok none

/-! ## The analysis chain of main.py (lines 63-96)

The button handler runs extraction, position clearing, embedding, PCA and
position attachment inside a single try block whose except clause shows
`f"エラー: {e}"`.  The three external calls (strategy.analyze,
llm.fetch_embeddings, reduce_dimensions_pca live outside src/) are
parameters: each is an Except value modelling either a returned value or a
raised exception. -/

/-- The position-clearing loop of main.py lines 76-78. -/
def clearPositions (g : ArgumentGraph) : ArgumentGraph :=
  { g with nodes := g.nodes.map (fun n => { n with position_2d := none }) }

/-- The position-attachment loop of main.py lines 90-91
(`node.position_2d = positions[i]`): nodes are mutated in order; if the
positions list is shorter than the node list an IndexError is raised at
the first missing index, leaving the earlier nodes already mutated (the
Bool records whether the loop raised). -/
def setPositions : List Node → List (List ℚ) → List Node × Bool
  | [], _ => ([], false)
  | n :: ns, [] => (n :: ns, true)
  | n :: ns, p :: ps =>
    let rest := setPositions ns ps
    ({ n with position_2d := some p } :: rest.1, rest.2)

/-- The graph after the topic-analysis step attached positions
(main.py lines 90-91). -/
def topicStep (g : ArgumentGraph) (positions : List (List ℚ)) : ArgumentGraph :=
  { g with nodes := (setPositions g.nodes positions).1 }

/-- Whether the position-attachment loop raised an IndexError. -/
def topicStepFails (g : ArgumentGraph) (positions : List (List ℚ)) : Bool :=
  (setPositions g.nodes positions).2

/-- The per-session UI state touched by the handler: the stored graph
(st.session_state["graph_data"]) and the error banner, if any. -/
structure MainState where
  sessionGraph : Option ArgumentGraph
  errorMsg : Option String
deriving Repr, DecidableEq

/-- The try/except block of main.py lines 67-96.  Because
st.session_state["graph_data"] is assigned the very graph object that the
topic-analysis loop later mutates (line 79 and line 93 alias the same
object), a failure after line 79 leaves the session holding whatever state
the graph had reached when the exception was raised. -/
def runAnalysis (useTopicAnalysis : Bool)
    (analyzeResult : Except String ArgumentGraph)
    (embeddingsResult : Except String (List (List ℚ)))
    (pcaResult : List (List ℚ) → Except String (List (List ℚ)))
    (st : MainState) : MainState :=
  match analyzeResult with
  | Except.error e => { st with errorMsg := some ("エラー: " ++ e) }
  | Except.ok g0 =>
    let g1 := clearPositions g0
    if useTopicAnalysis && !g1.nodes.isEmpty then
      match embeddingsResult with
      | Except.error e => { sessionGraph := some g1, errorMsg := some ("エラー: " ++ e) }
      | Except.ok vectors =>
        match pcaResult vectors with
        | Except.error e => { sessionGraph := some g1, errorMsg := some ("エラー: " ++ e) }
        | Except.ok positions =>
          if topicStepFails g1 positions then
            { sessionGraph := some (topicStep g1 positions),
              errorMsg := some ("エラー: list index out of range") }
          else
            { sessionGraph := some (topicStep g1 positions), errorMsg := none }
    else
      { sessionGraph := some g1, errorMsg := none }

/-! ## Helper lemmas -/

theorem getCoord_ok {pos : List ℚ} {i : Nat} {x : ℚ} (h : getCoord pos i = Except.ok x) :
    pos[i]? = some x := by
  unfold getCoord at h
  cases hp : pos[i]? with
  | none => rw [hp] at h; simp at h
  | some v => rw [hp] at h; simp at h; exact congrArg some h

theorem plotRowOf_ok {n : Node} {r : PlotRowBase} (h : plotRowOf n = Except.ok r) :
    r.id = n.id ∧ r.type = n.type ∧ r.sequence = n.sequence ∧ r.content_full = n.content ∧
    (n.position_2d.getD [])[0]? = some r.x ∧ (n.position_2d.getD [])[1]? = some r.y := by
  unfold plotRowOf at h
  cases h0 : getCoord (n.position_2d.getD []) 0 with
  | error e => rw [h0] at h; simp at h
  | ok x =>
    cases h1 : getCoord (n.position_2d.getD []) 1 with
    | error e => rw [h0, h1] at h; simp at h
    | ok y =>
      rw [h0, h1] at h
      simp only [Except.ok.injEq] at h
      subst h
      exact ⟨rfl, rfl, rfl, rfl, getCoord_ok h0, getCoord_ok h1⟩

theorem timelineRowOf_ok {n : Node} {r : TimelineRowBase} (h : timelineRowOf n = Except.ok r) :
    r.id = n.id ∧ r.type = n.type ∧ r.sequence = n.sequence.getD 0 ∧
    r.speaker = speakerLabel n.speaker ∧ r.content_full = n.content ∧
    (n.position_2d.getD [])[0]? = some r.x_topic ∧
    (n.position_2d.getD [])[1]? = some r.y_topic := by
  unfold timelineRowOf at h
  cases h0 : getCoord (n.position_2d.getD []) 0 with
  | error e => rw [h0] at h; simp at h
  | ok x =>
    cases h1 : getCoord (n.position_2d.getD []) 1 with
    | error e => rw [h0, h1] at h; simp at h
    | ok y =>
      rw [h0, h1] at h
      simp only [Except.ok.injEq] at h
      subst h
      exact ⟨rfl, rfl, rfl, rfl, rfl, getCoord_ok h0, getCoord_ok h1⟩

theorem plotRowsOf_forall2 : ∀ {ns : List Node} {rs : List PlotRowBase},
    plotRowsOf ns = Except.ok rs →
    List.Forall₂ (fun n r => plotRowOf n = Except.ok r) ns rs := by
  intro ns
  induction ns with
  | nil =>
    intro rs h
    unfold plotRowsOf at h
    simp only [Except.ok.injEq] at h
    rw [← h]
    exact List.Forall₂.nil
  | cons n ns ih =>
    intro rs h
    unfold plotRowsOf at h
    cases h0 : plotRowOf n with
    | error e => rw [h0] at h; simp at h
    | ok r =>
      cases h1 : plotRowsOf ns with
      | error e => rw [h0, h1] at h; simp at h
      | ok rs2 =>
        rw [h0, h1] at h
        simp only [Except.ok.injEq] at h
        rw [← h]
        exact List.Forall₂.cons h0 (ih h1)

theorem timelineRowsOf_forall2 : ∀ {ns : List Node} {rs : List TimelineRowBase},
    timelineRowsOf ns = Except.ok rs →
    List.Forall₂ (fun n r => timelineRowOf n = Except.ok r) ns rs := by
  intro ns
  induction ns with
  | nil =>
    intro rs h
    unfold timelineRowsOf at h
    simp only [Except.ok.injEq] at h
    rw [← h]
    exact List.Forall₂.nil
  | cons n ns ih =>
    intro rs h
    unfold timelineRowsOf at h
    cases h0 : timelineRowOf n with
    | error e => rw [h0] at h; simp at h
    | ok r =>
      cases h1 : timelineRowsOf ns with
      | error e => rw [h0, h1] at h; simp at h
      | ok rs2 =>
        rw [h0, h1] at h
        simp only [Except.ok.injEq] at h
        rw [← h]
        exact List.Forall₂.cons h0 (ih h1)

theorem forall2_map_eq {α β γ : Type _} {R : α → β → Prop} {f : α → γ} {fb : β → γ}
    (hfg : ∀ a b, R a b → f a = fb b) :
    ∀ {as : List α} {bs : List β}, List.Forall₂ R as bs → as.map f = bs.map fb := by
  intro as bs h
  induction h with
  | nil => rfl
  | cons hr _ ih => simp only [List.map_cons, hfg _ _ hr, ih]

theorem forall2_mem_right {α β : Type _} {R : α → β → Prop} :
    ∀ {as : List α} {bs : List β}, List.Forall₂ R as bs →
      ∀ b ∈ bs, ∃ a ∈ as, R a b := by
  intro as bs h
  induction h with
  | nil => intro b hb; simp at hb
  | cons hr _ ih =>
    intro b hb
    rcases List.mem_cons.mp hb with hb | hb
    · exact ⟨_, List.mem_cons_self _ _, hb ▸ hr⟩
    · rcases ih b hb with ⟨a, ha, hab⟩
      exact ⟨a, List.mem_cons_of_mem _ ha, hab⟩

theorem forall2_refl_of {α : Type _} {R : α → α → Prop} (h : ∀ a, R a a) :
    ∀ l : List α, List.Forall₂ R l l
  | [] => List.Forall₂.nil
  | a :: l => List.Forall₂.cons (h a) (forall2_refl_of h l)

theorem foldl_min_all_eq {c : ℚ} : ∀ (l : List ℚ) (a : ℚ),
    (∀ y ∈ l, y = c) → a = c → l.foldl min a = c := by
  intro l
  induction l with
  | nil => intro a _ ha; simpa using ha
  | cons x xs ih =>
    intro a hall ha
    have hx : x = c := hall x (by simp)
    simp only [List.foldl_cons]
    exact ih (min a x) (fun y hy => hall y (by simp [hy])) (by rw [ha, hx, min_self])

theorem foldl_max_all_eq {c : ℚ} : ∀ (l : List ℚ) (a : ℚ),
    (∀ y ∈ l, y = c) → a = c → l.foldl max a = c := by
  intro l
  induction l with
  | nil => intro a _ ha; simpa using ha
  | cons x xs ih =>
    intro a hall ha
    have hx : x = c := hall x (by simp)
    simp only [List.foldl_cons]
    exact ih (max a x) (fun y hy => hall y (by simp [hy])) (by rw [ha, hx, max_self])

theorem listMin_all_eq {l : List ℚ} {c : ℚ} (hne : l ≠ []) (h : ∀ y ∈ l, y = c) :
    listMin l = c := by
  cases l with
  | nil => exact absurd rfl hne
  | cons x xs =>
    unfold listMin
    exact foldl_min_all_eq xs x (fun y hy => h y (by simp [hy])) (h x (by simp))

theorem listMax_all_eq {l : List ℚ} {c : ℚ} (hne : l ≠ []) (h : ∀ y ∈ l, y = c) :
    listMax l = c := by
  cases l with
  | nil => exact absurd rfl hne
  | cons x xs =>
    unfold listMax
    exact foldl_max_all_eq xs x (fun y hy => h y (by simp [hy])) (h x (by simp))

theorem lastLookup_isSome {α β : Type _} {key : α → String} {val : α → β} :
    ∀ {l : List α} {s : String}, (lastLookup key val l s).isSome = true ↔ s ∈ l.map key := by
  intro l s
  induction l with
  | nil => simp [lastLookup]
  | cons a rest ih =>
    simp only [lastLookup, List.map_cons, List.mem_cons]
    cases h : lastLookup key val rest s with
    | some p =>
      have hmem : s ∈ List.map key rest := by rw [← ih, h]; rfl
      simp [hmem]
    | none =>
      rw [h] at ih
      simp only [Option.isSome_none, Bool.false_eq_true, false_iff] at ih
      by_cases hk : key a = s
      · simp [hk]
      · have hne : ¬ s = key a := fun hs => hk hs.symm
        simp [hk, hne, ih]

@[simp] theorem colorRow_id (a b c d : ℚ) (row : PlotRowBase) :
    (colorRow a b c d row).id = row.id := rfl

@[simp] theorem colorRow_x (a b c d : ℚ) (row : PlotRowBase) :
    (colorRow a b c d row).x = row.x := rfl

@[simp] theorem colorRow_y (a b c d : ℚ) (row : PlotRowBase) :
    (colorRow a b c d row).y = row.y := rfl

@[simp] theorem colorRow_r (a b c d : ℚ) (row : PlotRowBase) :
    (colorRow a b c d row).r = scaleChannel a b row.x := rfl

@[simp] theorem colorRow_g (a b c d : ℚ) (row : PlotRowBase) :
    (colorRow a b c d row).g = scaleChannel c d row.y := rfl

@[simp] theorem colorRow_color_rgb (a b c d : ℚ) (row : PlotRowBase) :
    (colorRow a b c d row).color_rgb =
      colorHex (scaleChannel a b row.x) (scaleChannel c d row.y) 128 := rfl

@[simp] theorem colorTimelineRow_id (a b c d : ℚ) (row : TimelineRowBase) :
    (colorTimelineRow a b c d row).id = row.id := rfl

@[simp] theorem colorTimelineRow_x (a b c d : ℚ) (row : TimelineRowBase) :
    (colorTimelineRow a b c d row).x_topic = row.x_topic := rfl

@[simp] theorem colorTimelineRow_y (a b c d : ℚ) (row : TimelineRowBase) :
    (colorTimelineRow a b c d row).y_topic = row.y_topic := rfl

@[simp] theorem colorTimelineRow_r (a b c d : ℚ) (row : TimelineRowBase) :
    (colorTimelineRow a b c d row).r = scaleChannel a b row.x_topic := rfl

@[simp] theorem colorTimelineRow_g (a b c d : ℚ) (row : TimelineRowBase) :
    (colorTimelineRow a b c d row).g = scaleChannel c d row.y_topic := rfl

@[simp] theorem colorTimelineRow_color_rgb (a b c d : ℚ) (row : TimelineRowBase) :
    (colorTimelineRow a b c d row).color_rgb =
      colorHex (scaleChannel a b row.x_topic) (scaleChannel c d row.y_topic) 128 := rfl

theorem generate_plot_ok_some {g : ArgumentGraph} {chart : PlotChart}
    (h : TopicMapPlotter.generate_plot g = Except.ok (some chart)) :
    plotGuard g = true ∧ ∃ rows, plotRowsOf g.nodes = Except.ok rows ∧
      chart = buildPlotChart rows g.edges := by
  by_cases hg : plotGuard g = true
  · refine ⟨hg, ?_⟩
    rw [TopicMapPlotter.generate_plot, hg] at h
    simp only [if_true] at h
    cases hr : plotRowsOf g.nodes with
    | error e => rw [hr] at h; simp at h
    | ok rows =>
      rw [hr] at h
      simp only [Except.ok.injEq, Option.some.injEq] at h
      exact ⟨rows, rfl, h.symm⟩
  · have hg' : plotGuard g = false := by revert hg; cases plotGuard g <;> simp
    rw [TopicMapPlotter.generate_plot, hg'] at h
    simp at h

theorem generate_timeline_plot_ok_some {g : ArgumentGraph} {chart : TimelineChart}
    (h : TopicMapPlotter.generate_timeline_plot g = Except.ok (some chart)) :
    timelineGuard g = true ∧ ∃ rows, timelineRowsOf g.nodes = Except.ok rows ∧
      chart = buildTimelineChart rows g.edges := by
  by_cases hg : timelineGuard g = true
  · refine ⟨hg, ?_⟩
    rw [TopicMapPlotter.generate_timeline_plot, hg] at h
    simp only [if_true] at h
    cases hr : timelineRowsOf g.nodes with
    | error e => rw [hr] at h; simp at h
    | ok rows =>
      rw [hr] at h
      simp only [Except.ok.injEq, Option.some.injEq] at h
      exact ⟨rows, rfl, h.symm⟩
  · have hg' : timelineGuard g = false := by revert hg; cases timelineGuard g <;> simp
    rw [TopicMapPlotter.generate_timeline_plot, hg'] at h
    simp at h

theorem plotGuard_nodes_ne_nil {g : ArgumentGraph} (h : plotGuard g = true) :
    g.nodes ≠ [] := by
  intro hnil
  rw [plotGuard, hnil] at h
  simp at h

theorem timelineGuard_nodes_ne_nil {g : ArgumentGraph} (h : timelineGuard g = true) :
    g.nodes ≠ [] := by
  intro hnil
  rw [timelineGuard, hnil] at h
  simp at h

theorem buildPlotChart_nodeRows (rows : List PlotRowBase) (edges : List Edge) :
    (buildPlotChart rows edges).nodeRows =
      rows.map (colorRow (listMin (rows.map PlotRowBase.x)) (listMax (rows.map PlotRowBase.x))
        (listMin (rows.map PlotRowBase.y)) (listMax (rows.map PlotRowBase.y))) := rfl

theorem buildPlotChart_edgeRows (rows : List PlotRowBase) (edges : List Edge) :
    (buildPlotChart rows edges).edgeRows =
      edgeSegs (buildPlotChart rows edges).nodeRows edges := rfl

theorem buildTimelineChart_nodeRows (rows : List TimelineRowBase) (edges : List Edge) :
    (buildTimelineChart rows edges).nodeRows =
      rows.map (colorTimelineRow (listMin (rows.map TimelineRowBase.x_topic))
        (listMax (rows.map TimelineRowBase.x_topic))
        (listMin (rows.map TimelineRowBase.y_topic))
        (listMax (rows.map TimelineRowBase.y_topic))) := rfl

theorem buildTimelineChart_edgeRows (rows : List TimelineRowBase) (edges : List Edge) :
    (buildTimelineChart rows edges).edgeRows =
      timelineSegs (buildTimelineChart rows edges).nodeRows edges := rfl

theorem plotRows_ids {ns : List Node} {rows : List PlotRowBase}
    (h : plotRowsOf ns = Except.ok rows) :
    ns.map Node.id = rows.map PlotRowBase.id := by
  refine forall2_map_eq ?_ (plotRowsOf_forall2 h)
  intro n r hr
  exact ((plotRowOf_ok hr).1).symm

theorem timelineRows_ids {ns : List Node} {rows : List TimelineRowBase}
    (h : timelineRowsOf ns = Except.ok rows) :
    ns.map Node.id = rows.map TimelineRowBase.id := by
  refine forall2_map_eq ?_ (timelineRowsOf_forall2 h)
  intro n r hr
  exact ((timelineRowOf_ok hr).1).symm

theorem colored_ids (a b c d : ℚ) (rows : List PlotRowBase) :
    (rows.map (colorRow a b c d)).map PlotRow.id = rows.map PlotRowBase.id := by
  rw [List.map_map]
  rfl

theorem colored_timeline_ids (a b c d : ℚ) (rows : List TimelineRowBase) :
    (rows.map (colorTimelineRow a b c d)).map TimelineRow.id =
      rows.map TimelineRowBase.id := by
  rw [List.map_map]
  rfl

/-- Decidable equality for Except results, used to evaluate the embedded
functions at concrete inputs. -/
instance {e a : Type _} [DecidableEq e] [DecidableEq a] : DecidableEq (Except e a) := fun x y =>
  match x, y with
  | Except.ok u, Except.ok v =>
    if h : u = v then Decidable.isTrue (by rw [h])
    else Decidable.isFalse (fun hh => h (Except.ok.inj hh))
  | Except.error u, Except.error v =>
    if h : u = v then Decidable.isTrue (by rw [h])
    else Decidable.isFalse (fun hh => h (Except.error.inj hh))
  | Except.ok _, Except.error _ => Decidable.isFalse (fun hh => Except.noConfusion hh)
  | Except.error _, Except.ok _ => Decidable.isFalse (fun hh => Except.noConfusion hh)

/-! ## Concrete graphs used by witnesses and counterexamples -/

/-- The empty ArgumentGraph. -/
def emptyArgumentGraph : ArgumentGraph := { nodes := [], edges := [] }

/-- A single node carrying a 2-D position. -/
def singleNode : Node :=
  { id := "n1", content := "alpha", speaker := some "Tanaka", type := "issue",
    sequence := some 1, position_2d := some [0, 1], embedding := none,
    cosine_sim_to_first := none }

/-- A graph with exactly one node, that node having a 2-D position. -/
def singleNodeGraph : ArgumentGraph := { nodes := [singleNode], edges := [] }

/-- Observer for the no-plot outcome of generate_plot. -/
def isOkNone : Except String (Option PlotChart) → Bool
  | Except.ok none => true
  | _ => false

/-- A node with a sequence index and a 2-D position. -/
def mixedNodeA : Node :=
  { id := "n1", content := "a", speaker := some "A", type := "issue",
    sequence := some 1, position_2d := some [0, 0], embedding := none,
    cosine_sim_to_first := none }

/-- A node with a 2-D position but no sequence index. -/
def mixedNodeB : Node :=
  { id := "n2", content := "b", speaker := some "B", type := "position",
    sequence := none, position_2d := some [1, 1], embedding := none,
    cosine_sim_to_first := none }

/-- A graph in which one node has a sequence index and one lacks it. -/
def mixedSequenceGraph : ArgumentGraph := { nodes := [mixedNodeA, mixedNodeB], edges := [] }

/-! ## Claims -/

/-- Claim C1, counterexample: a graph with a single node that has a 2-D
position has fewer than 2 nodes, yet generate_plot returns a chart, not
None — the guard of src/plotter.py line 14 only requires a non-empty node
list, not at least two nodes. -/
theorem c1_counterexample :
    singleNodeGraph.nodes.length < 2 ∧
    isOkNone (TopicMapPlotter.generate_plot singleNodeGraph) = false :=
  ⟨by decide, by rfl⟩

/-- Claim C1 (amended): for every ArgumentGraph that has no nodes, or in
which some node lacks a 2-D position (position_2d is None or empty),
TopicMapPlotter.generate_plot returns no plot (None). -/
theorem c1_no_plot_without_positions (g : ArgumentGraph)
    (h : g.nodes = [] ∨ ∃ n ∈ g.nodes, n.position_2d = none ∨ n.position_2d = some []) :
    TopicMapPlotter.generate_plot g = Except.ok none := by
  have hguard : plotGuard g = false := by
    rcases h with h | ⟨n, hn, hpos⟩
    · simp [plotGuard, h]
    · have hnp : nodeHasPos n = false := by
        rcases hpos with h | h <;> simp [nodeHasPos, h]
      cases hb : g.nodes.all nodeHasPos with
      | false => simp [plotGuard, hb]
      | true =>
        exfalso
        have := (List.all_eq_true.mp hb) n hn
        rw [hnp] at this
        exact Bool.false_ne_true this
  rw [TopicMapPlotter.generate_plot, hguard]
  simp

/-- Witness for C1's amended theorem at the empty graph. -/
theorem c1_witness : TopicMapPlotter.generate_plot emptyArgumentGraph = Except.ok none :=
  c1_no_plot_without_positions emptyArgumentGraph (Or.inl rfl)

/-- Claim C2, counterexample: in mixedSequenceGraph the first node has a
sequence index and every node has a 2-D position, yet
generate_timeline_plot returns None — no chart containing the sequenced
node is produced, because the guard of src/plotter.py line 129 rejects the
whole graph as soon as one node lacks a sequence. -/
theorem c2_counterexample :
    mixedSequenceGraph.nodes.map Node.sequence = [some 1, none] ∧
    mixedSequenceGraph.nodes.all nodeHasPos = true ∧
    TopicMapPlotter.generate_timeline_plot mixedSequenceGraph = Except.ok none :=
  ⟨rfl, rfl, rfl⟩

/-- Claim C2 (amended): timeline plotting is all-or-nothing — if any node
lacks a sequence index, generate_timeline_plot returns None (no chart at
all, so a node without a sequence never appears in any timeline chart);
and whenever a chart is produced, it contains every node of the graph. -/
theorem c2_timeline_all_or_nothing (g : ArgumentGraph) :
    ((∃ n ∈ g.nodes, n.sequence = none) →
      TopicMapPlotter.generate_timeline_plot g = Except.ok none) ∧
    (∀ chart, TopicMapPlotter.generate_timeline_plot g = Except.ok (some chart) →
      chart.nodeRows.map TimelineRow.id = g.nodes.map Node.id) := by
  constructor
  · rintro ⟨n, hn, hseq⟩
    have hguard : timelineGuard g = false := by
      cases hb : g.nodes.all (fun n => n.sequence.isSome && nodeHasPos n) with
      | false => simp [timelineGuard, hb]
      | true =>
        exfalso
        have := (List.all_eq_true.mp hb) n hn
        rw [hseq] at this
        simp at this
    rw [TopicMapPlotter.generate_timeline_plot, hguard]
    simp
  · intro chart h
    obtain ⟨hg, rows, hrows, hchart⟩ := generate_timeline_plot_ok_some h
    subst hchart
    rw [buildTimelineChart_nodeRows, colored_timeline_ids, ← timelineRows_ids hrows]

/-- Witness for C2's amended theorem: the mixed graph yields no chart. -/
theorem c2_witness :
    TopicMapPlotter.generate_timeline_plot mixedSequenceGraph = Except.ok none :=
  (c2_timeline_all_or_nothing mixedSequenceGraph).1 ⟨mixedNodeB, by decide, rfl⟩

/-- JSON for a graph whose single node carries the type tag "banana". -/
def bananaGraphJson : Json :=
  Json.obj [("nodes", Json.arr [Json.obj [("id", Json.str "n1"),
    ("type", Json.str "banana"), ("content", Json.str "c"),
    ("speaker", Json.str "s"), ("sequence", Json.num 1)]]),
    ("edges", Json.arr [])]

/-- Claim C3, counterexample: the validation step ArgumentGraph(**data)
accepts a node whose type is "banana", which is none of the four fixed
tags — Node.type is declared as a plain str in src/models.py line 8, so
the four-tag vocabulary of the prompt is not enforced by validation. -/
theorem c3_counterexample :
    (ArgumentGraph.validate bananaGraphJson).map (fun g => g.nodes.map Node.type) =
      some ["banana"] ∧
    ¬ "banana" ∈ nodeTypeVocabulary :=
  ⟨rfl, by decide⟩

/-- Claim C3 (amended): validation constrains a node's type only to be a
string — any string value is accepted unchanged, so the four-tag
vocabulary of the extraction prompt is not enforced by ArgumentGraph
validation. -/
theorem c3_any_type_string_accepted (t idv cv : String) :
    parseNode (Json.obj [("id", Json.str idv), ("type", Json.str t),
      ("content", Json.str cv)]) =
      some { id := idv, content := cv, speaker := none, type := t, sequence := none,
             position_2d := none, embedding := none, cosine_sim_to_first := none } := rfl

/-- JSON for a graph whose edge's target "ghost" names no node. -/
def danglingGraphJson : Json :=
  Json.obj [("nodes", Json.arr [Json.obj [("id", Json.str "n1"),
    ("type", Json.str "issue"), ("content", Json.str "c"),
    ("speaker", Json.null), ("sequence", Json.num 1)]]),
    ("edges", Json.arr [Json.obj [("source", Json.str "n1"),
    ("target", Json.str "ghost"), ("label", Json.str "支持")]])]

/-- The graph that validation produces from danglingGraphJson. -/
def danglingGraph : ArgumentGraph :=
  { nodes := [{ id := "n1", content := "c", speaker := none, type := "issue",
                sequence := some 1, position_2d := none, embedding := none,
                cosine_sim_to_first := none }],
    edges := [{ source := "n1", target := "ghost", label := "支持" }] }

/-- Claim C6: validation accepts a graph with a dangling edge endpoint —
ArgumentGraph (src/models.py lines 19-21) declares no validator relating
edge endpoints to node ids, so the referential invariant is not enforced. -/
theorem c6_dangling_edge_accepted :
    ArgumentGraph.validate danglingGraphJson = some danglingGraph ∧
    danglingGraph.edges.map Edge.target = ["ghost"] ∧
    ¬ "ghost" ∈ danglingGraph.nodes.map Node.id :=
  ⟨rfl, rfl, by decide⟩

/-! ## Colour determinism and degenerate ranges (C4, C5) -/

theorem listMin_eq_listMax_of_pairwise {α : Type _} {f : α → ℚ} {l : List α} (hne : l ≠ [])
    (hall : ∀ a ∈ l, ∀ b ∈ l, f a = f b) :
    listMin (l.map f) = listMax (l.map f) := by
  cases l with
  | nil => exact absurd rfl hne
  | cons a l2 =>
    have hmem : ∀ y ∈ (a :: l2).map f, y = f a := by
      intro y hy
      obtain ⟨b, hb, hbe⟩ := List.mem_map.mp hy
      rw [← hbe]
      exact hall b hb a (by simp)
    rw [listMin_all_eq (by simp) hmem, listMax_all_eq (by simp) hmem]

theorem scaleChannel_eq_128_of_minmax {l : List ℚ} (h : listMin l = listMax l) (v : ℚ) :
    scaleChannel (listMin l) (listMax l) v = 128 := by
  have hle : ¬ (listMax l - listMin l > 0) := by rw [← h]; simp
  simp [scaleChannel, hle]

theorem plotRows_ne_nil {g : ArgumentGraph} {rows : List PlotRowBase}
    (hg : plotGuard g = true) (hrows : plotRowsOf g.nodes = Except.ok rows) :
    rows ≠ [] := by
  intro hnil
  have hlen := List.Forall₂.length_eq (plotRowsOf_forall2 hrows)
  rw [hnil] at hlen
  have : g.nodes = [] := List.length_eq_zero.mp (by simpa using hlen)
  exact plotGuard_nodes_ne_nil hg this

theorem timelineRows_ne_nil {g : ArgumentGraph} {rows : List TimelineRowBase}
    (hg : timelineGuard g = true) (hrows : timelineRowsOf g.nodes = Except.ok rows) :
    rows ≠ [] := by
  intro hnil
  have hlen := List.Forall₂.length_eq (timelineRowsOf_forall2 hrows)
  rw [hnil] at hlen
  have : g.nodes = [] := List.length_eq_zero.mp (by simpa using hlen)
  exact timelineGuard_nodes_ne_nil hg this

/-- Claim C4: the RGB-blend colour mapping of generate_plot is a pure,
deterministic function of the 2-D coordinates — running generate_plot twice
on the same graph gives the same result, and within one produced chart two
node rows with identical coordinates receive the identical color_rgb
string. -/
theorem c4_color_mapping_deterministic :
    (∀ g : ArgumentGraph,
      TopicMapPlotter.generate_plot g = TopicMapPlotter.generate_plot g) ∧
    (∀ (g : ArgumentGraph) (chart : PlotChart),
      TopicMapPlotter.generate_plot g = Except.ok (some chart) →
      ∀ r1 ∈ chart.nodeRows, ∀ r2 ∈ chart.nodeRows,
        r1.x = r2.x → r1.y = r2.y → r1.color_rgb = r2.color_rgb) := by
  constructor
  · intro g; rfl
  · intro g chart h r1 h1 r2 h2 hx hy
    obtain ⟨hg, rows, hrows, hchart⟩ := generate_plot_ok_some h
    subst hchart
    rw [buildPlotChart_nodeRows] at h1 h2
    obtain ⟨b1, hb1, hb1e⟩ := List.mem_map.mp h1
    obtain ⟨b2, hb2, hb2e⟩ := List.mem_map.mp h2
    subst hb1e
    subst hb2e
    simp only [colorRow_x] at hx
    simp only [colorRow_y] at hy
    simp only [colorRow_color_rgb, hx, hy]

/-- A node with a 2-D position at the origin. -/
def twinNode1 : Node :=
  { id := "n1", content := "a", speaker := none, type := "issue",
    sequence := none, position_2d := some [0, 0], embedding := none,
    cosine_sim_to_first := none }

/-- A second node with the identical 2-D position. -/
def twinNode2 : Node :=
  { id := "n2", content := "b", speaker := none, type := "position",
    sequence := none, position_2d := some [0, 0], embedding := none,
    cosine_sim_to_first := none }

/-- A graph whose two nodes share the same coordinates. -/
def twinGraph : ArgumentGraph := { nodes := [twinNode1, twinNode2], edges := [] }

/-- The chart row generate_plot computes for twinNode1. -/
def twinRowA : PlotRow :=
  { id := "n1", x := 0, y := 0, content_full := "a", label_text := "Unknown\na",
    type := "issue", sequence := none, r := 128, g := 128, b := 128,
    color_rgb := "#808080" }

/-- The chart row generate_plot computes for twinNode2. -/
def twinRowB : PlotRow :=
  { id := "n2", x := 0, y := 0, content_full := "b", label_text := "Unknown\nb",
    type := "position", sequence := none, r := 128, g := 128, b := 128,
    color_rgb := "#808080" }

/-- The chart generate_plot produces for twinGraph. -/
def twinChart : PlotChart := { nodeRows := [twinRowA, twinRowB], edgeRows := [] }

/-- Evaluation of generate_plot on twinGraph. -/
theorem twinChart_eval :
    TopicMapPlotter.generate_plot twinGraph = Except.ok (some twinChart) := by
  simp only [TopicMapPlotter.generate_plot, twinGraph, twinNode1, twinNode2, plotGuard,
    nodeHasPos, plotRowsOf, plotRowOf, getCoord, labelText, speakerLabel, contentForLabel,
    buildPlotChart, listMin, listMax, colorRow, scaleChannel, colorHex, hex2, hexDigit,
    edgeSegs, edgeSegOf, lastLookup, twinChart, twinRowA, twinRowB]
  norm_num [nodeHasPos, colorRow, scaleChannel, colorHex, hex2, hexDigit]
  decide

/-- Witness for C4 on twinGraph: the two equal-coordinate rows get the same
colour. -/
theorem c4_witness : twinRowA.color_rgb = twinRowB.color_rgb :=
  c4_color_mapping_deterministic.2 twinGraph twinChart twinChart_eval
    twinRowA (by decide) twinRowB (by decide) rfl rfl

/-- Claim C5: for every graph passing the plot guard whose nodes all share
the same x coordinate (degenerate x range), every node's red channel is
the fixed mid-range value 128; symmetrically a degenerate y range gives
every node green channel 128 — for both generate_plot and
generate_timeline_plot, whose colour logic is identical. -/
theorem c5_degenerate_range_gives_128 :
    (∀ (g : ArgumentGraph) (chart : PlotChart),
      TopicMapPlotter.generate_plot g = Except.ok (some chart) →
      ((∀ n ∈ g.nodes, ∀ m ∈ g.nodes,
          (n.position_2d.getD [])[0]? = (m.position_2d.getD [])[0]?) →
        ∀ row ∈ chart.nodeRows, row.r = 128) ∧
      ((∀ n ∈ g.nodes, ∀ m ∈ g.nodes,
          (n.position_2d.getD [])[1]? = (m.position_2d.getD [])[1]?) →
        ∀ row ∈ chart.nodeRows, row.g = 128)) ∧
    (∀ (g : ArgumentGraph) (chart : TimelineChart),
      TopicMapPlotter.generate_timeline_plot g = Except.ok (some chart) →
      ((∀ n ∈ g.nodes, ∀ m ∈ g.nodes,
          (n.position_2d.getD [])[0]? = (m.position_2d.getD [])[0]?) →
        ∀ row ∈ chart.nodeRows, row.r = 128) ∧
      ((∀ n ∈ g.nodes, ∀ m ∈ g.nodes,
          (n.position_2d.getD [])[1]? = (m.position_2d.getD [])[1]?) →
        ∀ row ∈ chart.nodeRows, row.g = 128)) := by
  constructor
  · intro g chart h
    obtain ⟨hg, rows, hrows, hchart⟩ := generate_plot_ok_some h
    subst hchart
    have hf2 := plotRowsOf_forall2 hrows
    have hne := plotRows_ne_nil hg hrows
    constructor
    · intro hcoord row hrow
      rw [buildPlotChart_nodeRows] at hrow
      obtain ⟨b, hb, hbe⟩ := List.mem_map.mp hrow
      subst hbe
      rw [colorRow_r]
      have hpair : ∀ b1 ∈ rows, ∀ b2 ∈ rows, b1.x = b2.x := by
        intro b1 hb1 b2 hb2
        obtain ⟨n1, hn1, hr1⟩ := forall2_mem_right hf2 b1 hb1
        obtain ⟨n2, hn2, hr2⟩ := forall2_mem_right hf2 b2 hb2
        have e1 := (plotRowOf_ok hr1).2.2.2.2.1
        have e2 := (plotRowOf_ok hr2).2.2.2.2.1
        have hc := hcoord n1 hn1 n2 hn2
        rw [e1, e2] at hc
        exact Option.some.inj hc
      exact scaleChannel_eq_128_of_minmax
        (listMin_eq_listMax_of_pairwise hne hpair) b.x
    · intro hcoord row hrow
      rw [buildPlotChart_nodeRows] at hrow
      obtain ⟨b, hb, hbe⟩ := List.mem_map.mp hrow
      subst hbe
      rw [colorRow_g]
      have hpair : ∀ b1 ∈ rows, ∀ b2 ∈ rows, b1.y = b2.y := by
        intro b1 hb1 b2 hb2
        obtain ⟨n1, hn1, hr1⟩ := forall2_mem_right hf2 b1 hb1
        obtain ⟨n2, hn2, hr2⟩ := forall2_mem_right hf2 b2 hb2
        have e1 := (plotRowOf_ok hr1).2.2.2.2.2
        have e2 := (plotRowOf_ok hr2).2.2.2.2.2
        have hc := hcoord n1 hn1 n2 hn2
        rw [e1, e2] at hc
        exact Option.some.inj hc
      exact scaleChannel_eq_128_of_minmax
        (listMin_eq_listMax_of_pairwise hne hpair) b.y
  · intro g chart h
    obtain ⟨hg, rows, hrows, hchart⟩ := generate_timeline_plot_ok_some h
    subst hchart
    have hf2 := timelineRowsOf_forall2 hrows
    have hne := timelineRows_ne_nil hg hrows
    constructor
    · intro hcoord row hrow
      rw [buildTimelineChart_nodeRows] at hrow
      obtain ⟨b, hb, hbe⟩ := List.mem_map.mp hrow
      subst hbe
      rw [colorTimelineRow_r]
      have hpair : ∀ b1 ∈ rows, ∀ b2 ∈ rows, b1.x_topic = b2.x_topic := by
        intro b1 hb1 b2 hb2
        obtain ⟨n1, hn1, hr1⟩ := forall2_mem_right hf2 b1 hb1
        obtain ⟨n2, hn2, hr2⟩ := forall2_mem_right hf2 b2 hb2
        have e1 := (timelineRowOf_ok hr1).2.2.2.2.2.1
        have e2 := (timelineRowOf_ok hr2).2.2.2.2.2.1
        have hc := hcoord n1 hn1 n2 hn2
        rw [e1, e2] at hc
        exact Option.some.inj hc
      exact scaleChannel_eq_128_of_minmax
        (listMin_eq_listMax_of_pairwise hne hpair) b.x_topic
    · intro hcoord row hrow
      rw [buildTimelineChart_nodeRows] at hrow
      obtain ⟨b, hb, hbe⟩ := List.mem_map.mp hrow
      subst hbe
      rw [colorTimelineRow_g]
      have hpair : ∀ b1 ∈ rows, ∀ b2 ∈ rows, b1.y_topic = b2.y_topic := by
        intro b1 hb1 b2 hb2
        obtain ⟨n1, hn1, hr1⟩ := forall2_mem_right hf2 b1 hb1
        obtain ⟨n2, hn2, hr2⟩ := forall2_mem_right hf2 b2 hb2
        have e1 := (timelineRowOf_ok hr1).2.2.2.2.2.2
        have e2 := (timelineRowOf_ok hr2).2.2.2.2.2.2
        have hc := hcoord n1 hn1 n2 hn2
        rw [e1, e2] at hc
        exact Option.some.inj hc
      exact scaleChannel_eq_128_of_minmax
        (listMin_eq_listMax_of_pairwise hne hpair) b.y_topic

/-- Witness for C5 on twinGraph: the degenerate x range makes the red
channel of a produced row the constant 128. -/
theorem c5_witness : twinRowA.r = 128 :=
  (c5_degenerate_range_gives_128.1 twinGraph twinChart twinChart_eval).1
    (by decide) twinRowA (by decide)

/-! ## Schema round-trip (C7) -/

/-- JSON encoding of an optional string (speaker). -/
def optStrJson : Option String → Json
  | none => Json.null
  | some s => Json.str s

/-- JSON encoding of an optional integer (sequence). -/
def optIntJson : Option Int → Json
  | none => Json.null
  | some i => Json.num (i : ℚ)

/-- One node as the extraction schema of the prompt describes it
(src/strategies/ibis.py lines 36-44): id, type, content, speaker,
sequence. -/
structure RawNodeInput where
  id : String
  content : String
  speaker : Option String
  type : String
  sequence : Option Int
deriving Repr, DecidableEq

/-- One edge as the extraction schema describes it. -/
structure RawEdgeInput where
  source : String
  target : String
  label : String
deriving Repr, DecidableEq

/-- The JSON object for a schema-conforming node. -/
def RawNodeInput.toJson (r : RawNodeInput) : Json :=
  Json.obj [("id", Json.str r.id), ("type", Json.str r.type),
            ("content", Json.str r.content), ("speaker", optStrJson r.speaker),
            ("sequence", optIntJson r.sequence)]

/-- The Node that validation should produce from a conforming node. -/
def RawNodeInput.toNode (r : RawNodeInput) : Node :=
  { id := r.id, content := r.content, speaker := r.speaker, type := r.type,
    sequence := r.sequence, position_2d := none, embedding := none,
    cosine_sim_to_first := none }

/-- The JSON object for a schema-conforming edge. -/
def RawEdgeInput.toJson (e : RawEdgeInput) : Json :=
  Json.obj [("source", Json.str e.source), ("target", Json.str e.target),
            ("label", Json.str e.label)]

/-- The Edge that validation should produce from a conforming edge. -/
def RawEdgeInput.toEdge (e : RawEdgeInput) : Edge :=
  { source := e.source, target := e.target, label := e.label }

/-- The JSON object for a whole schema-conforming graph. -/
def graphInputJson (ns : List RawNodeInput) (es : List RawEdgeInput) : Json :=
  Json.obj [("nodes", Json.arr (ns.map RawNodeInput.toJson)),
            ("edges", Json.arr (es.map RawEdgeInput.toJson))]

theorem parseNode_toJson (r : RawNodeInput) :
    parseNode (RawNodeInput.toJson r) = some (RawNodeInput.toNode r) := by
  rcases r with ⟨idv, cv, sp, tv, sq⟩
  cases sp <;> cases sq <;> rfl

theorem parseEdge_toJson (e : RawEdgeInput) :
    parseEdge (RawEdgeInput.toJson e) = some (RawEdgeInput.toEdge e) := by
  rcases e with ⟨sv, tv, lv⟩
  rfl

theorem parseNodes_map (ns : List RawNodeInput) :
    parseNodes (ns.map RawNodeInput.toJson) = some (ns.map RawNodeInput.toNode) := by
  induction ns with
  | nil => rfl
  | cons n ns ih => simp [parseNodes, parseNode_toJson, ih]

theorem parseEdges_map (es : List RawEdgeInput) :
    parseEdges (es.map RawEdgeInput.toJson) = some (es.map RawEdgeInput.toEdge) := by
  induction es with
  | nil => rfl
  | cons e es ih => simp [parseEdges, parseEdge_toJson, ih]

/-- Claim C7: every input whose node/edge structure conforms to the fixed
schema is accepted by the validation step ArgumentGraph(**data), and the
resulting graph carries the input's nodes (id, type, content, speaker,
sequence) and edges (source, target, label) unchanged, the remaining
Optional node fields defaulting to None. -/
theorem c7_conforming_input_accepted_unchanged
    (ns : List RawNodeInput) (es : List RawEdgeInput) :
    ArgumentGraph.validate (graphInputJson ns es) =
      some { nodes := ns.map RawNodeInput.toNode, edges := es.map RawEdgeInput.toEdge } := by
  simp [ArgumentGraph.validate, graphInputJson, getField, parseNodes_map, parseEdges_map]

/-! ## Error boundary of main.py (C8) -/

/-- A node as produced by a successful extraction. -/
def extractedNode : Node :=
  { id := "n1", content := "alpha", speaker := some "A", type := "issue",
    sequence := some 1, position_2d := some [3, 4], embedding := none,
    cosine_sim_to_first := none }

/-- A successfully extracted graph. -/
def extractedGraph : ArgumentGraph := { nodes := [extractedNode], edges := [] }

/-- Claim C8, counterexample: starting from an empty session, extraction
succeeds and the embedding call raises.  The exception is surfaced as the
generic message, but the session graph state HAS been updated — main.py
line 79 stores the extraction-phase graph before the topic-analysis calls
run, so a partially processed graph (positions cleared, none attached) is
left in the session. -/
theorem c8_counterexample :
    runAnalysis true (Except.ok extractedGraph) (Except.error "network failure")
        Except.ok { sessionGraph := none, errorMsg := none } =
      { sessionGraph := some (clearPositions extractedGraph),
        errorMsg := some ("エラー: network failure") } ∧
    some (clearPositions extractedGraph) ≠ (none : Option ArgumentGraph) :=
  ⟨rfl, by simp⟩

/-- Claim C8 (amended): every exception in the analysis chain is caught at
the single top-level handler and surfaced as the generic message; the
session graph state is left untouched only when extraction itself fails —
when the failure happens later (embedding shown here; projection is
analogous), the session has already been updated with the extraction-phase
graph whose positions were cleared, i.e. a partially processed graph is
stored. -/
theorem c8_error_boundary :
    (∀ (e : String) (useTopic : Bool) embedRes pcaRes (st : MainState),
      runAnalysis useTopic (Except.error e) embedRes pcaRes st =
        { sessionGraph := st.sessionGraph, errorMsg := some ("エラー: " ++ e) }) ∧
    (∀ (g : ArgumentGraph) (e : String) pcaRes (st : MainState), g.nodes ≠ [] →
      runAnalysis true (Except.ok g) (Except.error e) pcaRes st =
        { sessionGraph := some (clearPositions g),
          errorMsg := some ("エラー: " ++ e) }) := by
  constructor
  · intro e useTopic embedRes pcaRes st
    rfl
  · intro g e pcaRes st hne
    have hcond : (true && !(clearPositions g).nodes.isEmpty) = true := by
      simp only [clearPositions, Bool.true_and, Bool.not_eq_true']
      cases hns : g.nodes with
      | nil => exact absurd hns hne
      | cons a l => simp
    simp only [runAnalysis, hcond, if_true]

/-- Witness for C8's amended theorem: embedding failure after a successful
extraction stores the cleared extraction graph and the error message. -/
theorem c8_witness :
    runAnalysis true (Except.ok extractedGraph) (Except.error "boom") Except.ok
        { sessionGraph := none, errorMsg := none } =
      { sessionGraph := some (clearPositions extractedGraph),
        errorMsg := some ("エラー: " ++ "boom") } :=
  c8_error_boundary.2 extractedGraph "boom" Except.ok
    { sessionGraph := none, errorMsg := none } (by decide)

/-! ## Frame property of the topic-analysis step (C9) -/

/-- Equality of every Node field except position_2d. -/
def nodeSameExceptPosition (a b : Node) : Prop :=
  a.id = b.id ∧ a.content = b.content ∧ a.speaker = b.speaker ∧ a.type = b.type ∧
  a.sequence = b.sequence ∧ a.embedding = b.embedding ∧
  a.cosine_sim_to_first = b.cosine_sim_to_first

theorem setPositions_frame : ∀ (ns : List Node) (ps : List (List ℚ)),
    List.Forall₂ nodeSameExceptPosition ns (setPositions ns ps).1 := by
  intro ns
  induction ns with
  | nil => intro ps; exact List.Forall₂.nil
  | cons n ns ih =>
    intro ps
    cases ps with
    | nil => exact forall2_refl_of (fun a => ⟨rfl, rfl, rfl, rfl, rfl, rfl, rfl⟩) (n :: ns)
    | cons p ps => exact List.Forall₂.cons ⟨rfl, rfl, rfl, rfl, rfl, rfl, rfl⟩ (ih ps)

/-- Claim C9: the topic-analysis step changes only the position_2d field
of each node — node count and order, the other node fields (id, content,
speaker, type, sequence, and also the unused embedding and similarity
fields) and the edge list are unchanged. -/
theorem c9_topic_step_only_positions (g : ArgumentGraph) (ps : List (List ℚ)) :
    List.Forall₂ nodeSameExceptPosition g.nodes (topicStep g ps).nodes ∧
    (topicStep g ps).edges = g.edges :=
  ⟨setPositions_frame g.nodes ps, rfl⟩

/-! ## Edge drawing requires both endpoints (C10) -/

theorem edgeSegOf_isSome {rows : List PlotRow} {e : Edge} :
    (edgeSegOf rows e).isSome = true ↔
      ((lastLookup PlotRow.id (fun r => (r.x, r.y)) rows e.source).isSome = true ∧
       (lastLookup PlotRow.id (fun r => (r.x, r.y)) rows e.target).isSome = true) := by
  unfold edgeSegOf
  cases h1 : lastLookup PlotRow.id (fun r => (r.x, r.y)) rows e.source <;>
    cases h2 : lastLookup PlotRow.id (fun r => (r.x, r.y)) rows e.target <;> simp

theorem timelineSegOf_isSome {rows : List TimelineRow} {e : Edge} :
    (timelineSegOf rows e).isSome = true ↔
      ((lastLookup TimelineRow.id (fun r => (r.sequence, r.speaker)) rows e.source).isSome = true ∧
       (lastLookup TimelineRow.id (fun r => (r.sequence, r.speaker)) rows e.target).isSome = true) := by
  unfold timelineSegOf
  cases h1 : lastLookup TimelineRow.id (fun r => (r.sequence, r.speaker)) rows e.source <;>
    cases h2 : lastLookup TimelineRow.id (fun r => (r.sequence, r.speaker)) rows e.target <;> simp

/-- Claim C10: in both plotters, an edge contributes a drawn segment iff
both its endpoint ids occur among the graph's node ids; an edge with a
missing endpoint is silently omitted from the chart's edge rows and causes
no error. -/
theorem c10_edge_drawn_iff_endpoints_exist :
    (∀ (g : ArgumentGraph) (chart : PlotChart),
      TopicMapPlotter.generate_plot g = Except.ok (some chart) →
      chart.edgeRows = edgeSegs chart.nodeRows g.edges ∧
      ∀ e ∈ g.edges, ((edgeSegOf chart.nodeRows e).isSome = true ↔
        (e.source ∈ g.nodes.map Node.id ∧ e.target ∈ g.nodes.map Node.id))) ∧
    (∀ (g : ArgumentGraph) (chart : TimelineChart),
      TopicMapPlotter.generate_timeline_plot g = Except.ok (some chart) →
      chart.edgeRows = timelineSegs chart.nodeRows g.edges ∧
      ∀ e ∈ g.edges, ((timelineSegOf chart.nodeRows e).isSome = true ↔
        (e.source ∈ g.nodes.map Node.id ∧ e.target ∈ g.nodes.map Node.id))) := by
  constructor
  · intro g chart h
    obtain ⟨hg, rows, hrows, hchart⟩ := generate_plot_ok_some h
    subst hchart
    refine ⟨buildPlotChart_edgeRows rows g.edges, ?_⟩
    intro e he
    have hids : (buildPlotChart rows g.edges).nodeRows.map PlotRow.id =
        g.nodes.map Node.id := by
      rw [buildPlotChart_nodeRows, colored_ids, ← plotRows_ids hrows]
    rw [edgeSegOf_isSome, lastLookup_isSome, lastLookup_isSome, hids]
  · intro g chart h
    obtain ⟨hg, rows, hrows, hchart⟩ := generate_timeline_plot_ok_some h
    subst hchart
    refine ⟨buildTimelineChart_edgeRows rows g.edges, ?_⟩
    intro e he
    have hids : (buildTimelineChart rows g.edges).nodeRows.map TimelineRow.id =
        g.nodes.map Node.id := by
      rw [buildTimelineChart_nodeRows, colored_timeline_ids, ← timelineRows_ids hrows]
    rw [timelineSegOf_isSome, lastLookup_isSome, lastLookup_isSome, hids]

/-- A node at the origin with sequence 1. -/
def edgeNode1 : Node :=
  { id := "n1", content := "a", speaker := none, type := "issue",
    sequence := some 1, position_2d := some [0, 0], embedding := none,
    cosine_sim_to_first := none }

/-- A node at (1, 1) with sequence 2. -/
def edgeNode2 : Node :=
  { id := "n2", content := "b", speaker := none, type := "position",
    sequence := some 2, position_2d := some [1, 1], embedding := none,
    cosine_sim_to_first := none }

/-- An edge whose endpoints both exist. -/
def goodEdge : Edge := { source := "n2", target := "n1", label := "提案" }

/-- An edge whose target "zz" names no node. -/
def dangEdge : Edge := { source := "n1", target := "zz", label := "支持" }

/-- A graph with one well-formed and one dangling edge. -/
def edgeGraphW : ArgumentGraph :=
  { nodes := [edgeNode1, edgeNode2], edges := [goodEdge, dangEdge] }

/-- The chart row generate_plot computes for edgeNode1. -/
def edgePlotRow1 : PlotRow :=
  { id := "n1", x := 0, y := 0, content_full := "a", label_text := "Unknown\na",
    type := "issue", sequence := some 1, r := 50, g := 50, b := 128,
    color_rgb := "#323280" }

/-- The chart row generate_plot computes for edgeNode2. -/
def edgePlotRow2 : PlotRow :=
  { id := "n2", x := 1, y := 1, content_full := "b", label_text := "Unknown\nb",
    type := "position", sequence := some 2, r := 255, g := 255, b := 128,
    color_rgb := "#ffff80" }

/-- The chart generate_plot produces for edgeGraphW: only the well-formed
edge appears. -/
def edgeChartW : PlotChart :=
  { nodeRows := [edgePlotRow1, edgePlotRow2],
    edgeRows := [{ x1 := 1, y1 := 1, x2 := 0, y2 := 0 }] }

/-- Evaluation of generate_plot on edgeGraphW. -/
theorem edgeChartW_eval :
    TopicMapPlotter.generate_plot edgeGraphW = Except.ok (some edgeChartW) := by
  simp only [TopicMapPlotter.generate_plot, edgeGraphW, edgeNode1, edgeNode2, goodEdge,
    dangEdge, plotGuard, nodeHasPos, plotRowsOf, plotRowOf, getCoord, labelText,
    speakerLabel, contentForLabel, buildPlotChart, listMin, listMax, colorRow,
    scaleChannel, colorHex, hex2, hexDigit, edgeSegs, edgeSegOf, lastLookup,
    edgeChartW, edgePlotRow1, edgePlotRow2]
  norm_num [nodeHasPos, colorRow, scaleChannel, colorHex, hex2, hexDigit,
    edgeSegs, edgeSegOf, lastLookup, List.filterMap]
  decide

/-- The timeline chart row for edgeNode1. -/
def edgeTimelineRow1 : TimelineRow :=
  { id := "n1", sequence := 1, speaker := "Unknown", x_topic := 0, y_topic := 0,
    content_full := "a", label_text := "Unknown\na", type := "issue",
    r := 50, g := 50, b := 128, color_rgb := "#323280" }

/-- The timeline chart row for edgeNode2. -/
def edgeTimelineRow2 : TimelineRow :=
  { id := "n2", sequence := 2, speaker := "Unknown", x_topic := 1, y_topic := 1,
    content_full := "b", label_text := "Unknown\nb", type := "position",
    r := 255, g := 255, b := 128, color_rgb := "#ffff80" }

/-- A graph with the same nodes as edgeGraphW but only the dangling edge. -/
def timelineGraphW : ArgumentGraph :=
  { nodes := [edgeNode1, edgeNode2], edges := [dangEdge] }

/-- The chart generate_timeline_plot produces for timelineGraphW: the
dangling edge contributes no segment. -/
def edgeTimelineChartW : TimelineChart :=
  { nodeRows := [edgeTimelineRow1, edgeTimelineRow2], edgeRows := [] }

/-- Evaluation of generate_timeline_plot on timelineGraphW. -/
theorem edgeTimelineChartW_eval :
    TopicMapPlotter.generate_timeline_plot timelineGraphW =
      Except.ok (some edgeTimelineChartW) := by
  simp only [TopicMapPlotter.generate_timeline_plot, timelineGraphW, edgeNode1, edgeNode2,
    dangEdge, timelineGuard, nodeHasPos, timelineRowsOf, timelineRowOf,
    getCoord, labelText, speakerLabel, contentForLabel, buildTimelineChart, listMin,
    listMax, colorTimelineRow, scaleChannel, colorHex, hex2, hexDigit, timelineSegs,
    timelineSegOf, lastLookup, edgeTimelineChartW, edgeTimelineRow1, edgeTimelineRow2]
  norm_num [nodeHasPos, colorTimelineRow, scaleChannel, colorHex, hex2, hexDigit,
    timelineSegs, timelineSegOf, lastLookup, List.filterMap]
  decide

/-- Witness for C10: in both plotters, the dangling edge's drawn-segment
test agrees with endpoint membership among the node ids. -/
theorem c10_witness :
    ((edgeSegOf edgeChartW.nodeRows dangEdge).isSome = true ↔
      (dangEdge.source ∈ edgeGraphW.nodes.map Node.id ∧
       dangEdge.target ∈ edgeGraphW.nodes.map Node.id)) ∧
    ((timelineSegOf edgeTimelineChartW.nodeRows dangEdge).isSome = true ↔
      (dangEdge.source ∈ timelineGraphW.nodes.map Node.id ∧
       dangEdge.target ∈ timelineGraphW.nodes.map Node.id)) :=
  ⟨(c10_edge_drawn_iff_endpoints_exist.1 edgeGraphW edgeChartW edgeChartW_eval).2
      dangEdge (by decide),
   (c10_edge_drawn_iff_endpoints_exist.2 timelineGraphW edgeTimelineChartW
      edgeTimelineChartW_eval).2 dangEdge (by decide)⟩
